import Mathlib

/-!
Shallow embedding of `app.py` (`list_compute_resources`) from the anodet
repository, together with theorems checking the specification's claims.

The external Databricks workspace client is modelled as an explicit
`ClientBehavior` record: construction and each of the two list calls either
returns a value or raises (an `Except.error` carrying the exception message).
Python exceptions inside the `try` block are modelled by the `Except` monad;
the outer `try/except` is the final `match` in `list_compute_resources`.
-/

namespace Anodet

/-- A cell of a Gradio dataframe row: Python puts strings and ints side by side. -/
inductive Cell where
  | str (s : String)
  | int (n : Int)
deriving DecidableEq, Repr

/-- A rendered table: a list of rows of cells. -/
abbrev Table := List (List Cell)

/-- Structural model of the JSON value handed to `json.dumps`. -/
inductive Json where
  | str (s : String)
  | int (n : Int)
  | arr (xs : List Json)
  | obj (fields : List (String × Json))

/-- The keys of a JSON object (empty for non-objects). -/
def Json.keys : Json → List String
  | .obj fs => fs.map Prod.fst
  | _ => []

/-- Look a key up in a JSON object. -/
def Json.lookup (j : Json) (k : String) : Option Json :=
  match j with
  | .obj fs => (fs.find? (fun p => p.1 == k)).map Prod.snd
  | _ => none

/-- A fetched cluster record as exposed by the SDK: each field may be `None`
(for `state`, `some s` stands for an enum object whose `.value` is `s`). -/
structure ClusterRec where
  cluster_name : Option String
  cluster_id : Option String
  state : Option String
  spark_version : Option String
deriving DecidableEq, Repr

/-- A fetched SQL warehouse record as exposed by the SDK. -/
structure WarehouseRec where
  name : Option String
  id : Option String
  state : Option String
  cluster_size : Option String
  warehouse_type : Option String
  auto_stop_mins : Option Int
deriving DecidableEq, Repr

/-- Python `x or d` for an optional string: `None` and `""` are both falsy. -/
def pyOrStr (x : Option String) (d : String) : String :=
  match x with
  | none => d
  | some s => if s = "" then d else s

/-- Python `x.value if x else d` for an enum-valued field (`None` is the only
falsy case; an enum object is always truthy). -/
def enumOr (x : Option String) (d : String) : String :=
  match x with
  | none => d
  | some s => s

/-- The normalized dict appended to `cluster_info` (app.py lines 29-35). -/
structure CInfo where
  type : String
  name : String
  id : String
  state : String
  spark_version : String
deriving DecidableEq, Repr

/-- The normalized dict appended to `warehouse_info` (app.py lines 48-56);
`auto_stop_mins` keeps the optional int, rendered as `"N/A"` when absent. -/
structure WInfo where
  type : String
  name : String
  id : String
  state : String
  cluster_size : String
  warehouse_type : String
  auto_stop_mins : Option Int
deriving DecidableEq, Repr

/-- JSON encoding of a cluster info dict. -/
def CInfo.toJson (r : CInfo) : Json :=
  .obj [("type", .str r.type), ("name", .str r.name), ("id", .str r.id),
        ("state", .str r.state), ("spark_version", .str r.spark_version)]

/-- JSON encoding of a warehouse info dict: an absent `auto_stop_mins` was stored
as the string `"N/A"` in the Python dict. -/
def WInfo.toJson (r : WInfo) : Json :=
  .obj [("type", .str r.type), ("name", .str r.name), ("id", .str r.id),
        ("state", .str r.state), ("cluster_size", .str r.cluster_size),
        ("warehouse_type", .str r.warehouse_type),
        ("auto_stop_mins", match r.auto_stop_mins with
          | some n => .int n
          | none => .str "N/A")]

/-- `d[k] = d.get(k, 0) + 1` on a Python dict modelled as an insertion-ordered
association list: an existing key keeps its position, a new key is appended. -/
def bump (m : List (String × Nat)) (k : String) : List (String × Nat) :=
  match m with
  | [] => [(k, 1)]
  | (q, v) :: rest => if q = k then (q, v + 1) :: rest else (q, v) :: bump rest k

/-- The `for cluster in clusters` loop (app.py lines 26-35), with the
`cluster_info` / `cluster_states` accumulators passed explicitly. -/
def clusterLoop : List ClusterRec → List CInfo → List (String × Nat) →
    List CInfo × List (String × Nat)
  | [], info, states => (info, states)
  | c :: rest, info, states =>
      let state := enumOr c.state "Unknown"
      clusterLoop rest
        (info ++ [{ type := "Cluster", name := pyOrStr c.cluster_name "N/A",
                    id := pyOrStr c.cluster_id "N/A", state := state,
                    spark_version := pyOrStr c.spark_version "N/A" }])
        (bump states state)

/-- Exception message for comparing an int against a `None` threshold. -/
def noneCompareMsg : String :=
  "TypeError: unsupported comparison between int and NoneType"

/-- The `for warehouse in warehouses` loop (app.py lines 43-66), with the
`warehouse_info` / `warehouse_states` / `breach_list` accumulators explicit.
A present `auto_stop` compared against a missing threshold raises (Python
`int > None` is a TypeError), so the result lives in `Except`. -/
def warehouseLoop (threshold_mins : Option Int) :
    List WarehouseRec → List WInfo → List (String × Nat) → Table →
    Except String (List WInfo × List (String × Nat) × Table)
  | [], info, states, breach_list => .ok (info, states, breach_list)
  | w :: rest, info, states, breach_list =>
      let state := enumOr w.state "Unknown"
      let states := bump states state
      let auto_stop := w.auto_stop_mins
      let info := info ++
        [{ type := "SQL Warehouse", name := pyOrStr w.name "N/A",
           id := pyOrStr w.id "N/A", state := state,
           cluster_size := pyOrStr w.cluster_size "N/A",
           warehouse_type := enumOr w.warehouse_type "N/A",
           auto_stop_mins := auto_stop }]
      match auto_stop with
      | none => warehouseLoop threshold_mins rest info states breach_list
      | some a =>
        match threshold_mins with
        | none => .error noneCompareMsg
        | some t =>
          if a > t then
            warehouseLoop threshold_mins rest info states
              (breach_list ++
                [[Cell.str (pyOrStr w.name "N/A"), Cell.str "SQL Warehouse",
                  Cell.int a, Cell.int t, Cell.int (a - t)]])
          else warehouseLoop threshold_mins rest info states breach_list

/-- Insert a tally pair into a list sorted by key (states never repeat a key). -/
def insertPair (p : String × Nat) : List (String × Nat) → List (String × Nat)
  | [] => [p]
  | q :: rest => if p.1 < q.1 then p :: q :: rest else q :: insertPair p rest

/-- Python `sorted(d.items())` on a state tally (keys are distinct, so sorting
the pairs is sorting by key). -/
def sortPairs : List (String × Nat) → List (String × Nat)
  | [] => []
  | p :: rest => insertPair p (sortPairs rest)

/-- The per-state rows appended below the total row of a summary table. -/
def stateRows (m : List (String × Nat)) : Table :=
  m.map (fun p => [Cell.str p.1, Cell.int (p.2 : Int)])

/-- The external workspace client, seen through the three operations the code
uses: `WorkspaceClient(host=..., token=...)`, `w.clusters.list()` and
`w.warehouses.list()`. An `Except.error` models the call raising. -/
structure ClientBehavior where
  construct : Except String Unit
  listClusters : Except String (List ClusterRec)
  listWarehouses : Except String (List WarehouseRec)

/-- Body of the `try` block of `list_compute_resources` (app.py lines 12-105).
`env_url` / `env_token` are `os.getenv("url", "")` / `os.getenv("token", "")`. -/
def listComputeBody (host_url token : String) (threshold_mins : Option Int)
    (env_url env_token : String) (client : ClientBehavior) :
    Except String (Table × Table × Table × Json) :=
  let host_url := if host_url = "" then env_url else host_url
  let token := if token = "" then env_token else token
  if host_url = "" ∨ token = "" then
    let error_msg : Table :=
      [[Cell.str "Error", Cell.str "Please provide both host URL and token"]]
    .ok (error_msg, error_msg, error_msg,
      Json.obj [("error",
        Json.str "Please provide both host URL and token (via input or .env file)")])
  else
    match client.construct with
    | .error e => .error e
    | .ok _ =>
      match client.listClusters with
      | .error e => .error e
      | .ok clusters =>
        let (cluster_info, cluster_states) := clusterLoop clusters [] []
        match client.listWarehouses with
        | .error e => .error e
        | .ok warehouses =>
          match warehouseLoop threshold_mins warehouses [] [] [] with
          | .error e => .error e
          | .ok (warehouse_info, warehouse_states, breach_list) =>
            let cluster_summary : Table :=
              [[Cell.str "Total Clusters", Cell.int (cluster_info.length : Int)]] ++
                (if cluster_states = [] then [] else stateRows (sortPairs cluster_states))
            let warehouse_summary : Table :=
              [[Cell.str "Total Warehouses", Cell.int (warehouse_info.length : Int)]] ++
                (if warehouse_states = [] then [] else stateRows (sortPairs warehouse_states))
            let result : Json := Json.obj
              [("clusters", Json.arr (cluster_info.map CInfo.toJson)),
               ("sql_warehouses", Json.arr (warehouse_info.map WInfo.toJson)),
               ("summary", Json.obj
                 [("total_clusters", Json.int (cluster_info.length : Int)),
                  ("total_warehouses", Json.int (warehouse_info.length : Int)),
                  ("cluster_states",
                    Json.obj (cluster_states.map (fun p => (p.1, Json.int (p.2 : Int))))),
                  ("warehouse_states",
                    Json.obj (warehouse_states.map (fun p => (p.1, Json.int (p.2 : Int)))))])]
            let breach_table : Table :=
              if breach_list = [] then
                [[Cell.str "No resources exceed threshold", Cell.str "",
                  Cell.str "", Cell.str "", Cell.str ""]]
              else breach_list
            if cluster_info = [] ∧ warehouse_info = [] then
              let empty : Table := [[Cell.str "No resources found", Cell.str "0"]]
              .ok (empty, empty, empty,
                Json.obj [("message", Json.str "No compute resources found")])
            else
              .ok (cluster_summary, warehouse_summary, breach_table, result)

/-- `list_compute_resources` (app.py lines 10-108): the body, with the
`except Exception` handler turning any raised message into the error quad. -/
def list_compute_resources (host_url token : String) (threshold_mins : Option Int)
    (env_url env_token : String) (client : ClientBehavior) :
    Table × Table × Table × Json :=
  match listComputeBody host_url token threshold_mins env_url env_token client with
  | .ok r => r
  | .error e =>
      ([[Cell.str e, Cell.str ""]], [[Cell.str e, Cell.str ""]],
       [[Cell.str e, Cell.str ""]], Json.obj [("error", Json.str e)])

/-- The quad returned when host or token is missing (app.py lines 17-18). -/
def missingCredsQuad : Table × Table × Table × Json :=
  ([[Cell.str "Error", Cell.str "Please provide both host URL and token"]],
   [[Cell.str "Error", Cell.str "Please provide both host URL and token"]],
   [[Cell.str "Error", Cell.str "Please provide both host URL and token"]],
   Json.obj [("error",
     Json.str "Please provide both host URL and token (via input or .env file)")])

/-- The quad returned by the `except` handler (app.py lines 106-108). -/
def upstreamQuad (e : String) : Table × Table × Table × Json :=
  ([[Cell.str e, Cell.str ""]], [[Cell.str e, Cell.str ""]],
   [[Cell.str e, Cell.str ""]], Json.obj [("error", Json.str e)])

/-- The quad returned when both lists are empty (app.py lines 101-103). -/
def emptyQuad : Table × Table × Table × Json :=
  ([[Cell.str "No resources found", Cell.str "0"]],
   [[Cell.str "No resources found", Cell.str "0"]],
   [[Cell.str "No resources found", Cell.str "0"]],
   Json.obj [("message", Json.str "No compute resources found")])

/-! ## Concrete records and clients used by witnesses -/

/-- A demo cluster record with all fields present. -/
def cDemo : ClusterRec :=
  { cluster_name := some "c1", cluster_id := some "c1-id",
    state := some "RUNNING", spark_version := some "13.3" }

/-- A demo cluster record with every field missing. -/
def cNone : ClusterRec :=
  { cluster_name := none, cluster_id := none, state := none, spark_version := none }

/-- A demo warehouse with `auto_stop_mins = 30`. -/
def wDemo : WarehouseRec :=
  { name := some "w1", id := some "w1-id", state := some "RUNNING",
    cluster_size := some "Small", warehouse_type := some "PRO",
    auto_stop_mins := some 30 }

/-- A demo warehouse with every field missing. -/
def wNone : WarehouseRec :=
  { name := none, id := none, state := none, cluster_size := none,
    warehouse_type := none, auto_stop_mins := none }

/-- A client whose calls all succeed with the demo records. -/
def okClient : ClientBehavior :=
  { construct := .ok (), listClusters := .ok [cDemo], listWarehouses := .ok [wDemo] }

/-- A client whose calls all succeed with empty lists. -/
def emptyClient : ClientBehavior :=
  { construct := .ok (), listClusters := .ok [], listWarehouses := .ok [] }

/-- A client whose construction raises `401 Unauthorized`. -/
def authFailClient : ClientBehavior :=
  { construct := .error "401 Unauthorized", listClusters := .ok [],
    listWarehouses := .ok [] }

/-- A client whose cluster fetch raises. -/
def clusterFailClient : ClientBehavior :=
  { construct := .ok (), listClusters := .error "connection reset",
    listWarehouses := .ok [wDemo] }

/-! ## Helper lemmas -/

/-- Sum of the counts of a tally. -/
def tallySum (m : List (String × Nat)) : Nat :=
  (m.map Prod.snd).sum

theorem tallySum_bump (m : List (String × Nat)) (k : String) :
    tallySum (bump m k) = tallySum m + 1 := by
  induction m with
  | nil => rfl
  | cons p rest ih =>
    obtain ⟨q, v⟩ := p
    by_cases h : q = k
    · simp [bump, h, tallySum]
      ring
    · simp [bump, h, tallySum] at ih ⊢
      omega

theorem clusterLoop_states_sum (cs : List ClusterRec) :
    ∀ info states, tallySum (clusterLoop cs info states).2 =
      tallySum states + cs.length := by
  induction cs with
  | nil => intro info states; simp [clusterLoop]
  | cons c rest ih =>
    intro info states
    simp only [clusterLoop, ih, tallySum_bump, List.length_cons]
    omega

theorem warehouseLoop_states_sum (th : Option Int) (ws : List WarehouseRec) :
    ∀ info states breach_list out,
      warehouseLoop th ws info states breach_list = .ok out →
      tallySum out.2.1 = tallySum states + ws.length := by
  induction ws with
  | nil =>
    intro info states breach_list out h
    simp only [warehouseLoop] at h
    cases h
    simp
  | cons w rest ih =>
    intro info states breach_list out h
    simp only [warehouseLoop] at h
    split at h
    · have hs := ih _ _ _ _ h
      rw [hs, tallySum_bump]
      simp only [List.length_cons]
      omega
    · split at h
      · simp at h
      · split at h
        · have hs := ih _ _ _ _ h
          rw [hs, tallySum_bump]
          simp only [List.length_cons]
          omega
        · have hs := ih _ _ _ _ h
          rw [hs, tallySum_bump]
          simp only [List.length_cons]
          omega

/-- The normalized record the cluster loop appends for one cluster. -/
def normCluster (c : ClusterRec) : CInfo :=
  { type := "Cluster", name := pyOrStr c.cluster_name "N/A",
    id := pyOrStr c.cluster_id "N/A", state := enumOr c.state "Unknown",
    spark_version := pyOrStr c.spark_version "N/A" }

/-- The normalized record the warehouse loop appends for one warehouse. -/
def normWarehouse (w : WarehouseRec) : WInfo :=
  { type := "SQL Warehouse", name := pyOrStr w.name "N/A",
    id := pyOrStr w.id "N/A", state := enumOr w.state "Unknown",
    cluster_size := pyOrStr w.cluster_size "N/A",
    warehouse_type := enumOr w.warehouse_type "N/A",
    auto_stop_mins := w.auto_stop_mins }

/-- Modelled from the spec: the breach rows §4.1 step 6 describes — one row per
warehouse whose `auto_stop_minutes` is present and strictly above the
threshold, carrying the excess. Compared below with the rows the code builds. -/
def breachesSpec (t : Int) (ws : List WarehouseRec) : Table :=
  ws.filterMap (fun w =>
    match w.auto_stop_mins with
    | some a =>
        if a > t then
          some [Cell.str (pyOrStr w.name "N/A"), Cell.str "SQL Warehouse",
                Cell.int a, Cell.int t, Cell.int (a - t)]
        else none
    | none => none)

theorem clusterLoop_eq (cs : List ClusterRec) : ∀ info states,
    clusterLoop cs info states =
      (info ++ cs.map normCluster,
       cs.foldl (fun m c => bump m (enumOr c.state "Unknown")) states) := by
  induction cs with
  | nil => intro info states; simp [clusterLoop]
  | cons c rest ih =>
    intro info states
    simp [clusterLoop, ih, normCluster]

theorem warehouseLoop_some_eq (t : Int) (ws : List WarehouseRec) :
    ∀ info states breach_list,
      warehouseLoop (some t) ws info states breach_list =
        .ok (info ++ ws.map normWarehouse,
             ws.foldl (fun m w => bump m (enumOr w.state "Unknown")) states,
             breach_list ++ breachesSpec t ws) := by
  induction ws with
  | nil => intro info states breach_list; simp [warehouseLoop, breachesSpec]
  | cons w rest ih =>
    intro info states breach_list
    cases haz : w.auto_stop_mins with
    | none =>
      simp [warehouseLoop, haz, ih, normWarehouse, breachesSpec]
    | some a =>
      by_cases hat : a > t
      · simp [warehouseLoop, haz, hat, ih, normWarehouse, breachesSpec]
      · simp [warehouseLoop, haz, hat, ih, normWarehouse, breachesSpec]

theorem warehouseLoop_ok_parts (th : Option Int) (ws : List WarehouseRec) :
    ∀ info states breach_list out,
      warehouseLoop th ws info states breach_list = .ok out →
      out.1 = info ++ ws.map normWarehouse ∧
      out.2.1 = ws.foldl (fun m w => bump m (enumOr w.state "Unknown")) states := by
  induction ws with
  | nil =>
    intro info states breach_list out h
    simp only [warehouseLoop] at h
    cases h
    simp
  | cons w rest ih =>
    intro info states breach_list out h
    simp only [warehouseLoop] at h
    split at h
    · have hs := ih _ _ _ _ h
      simp [normWarehouse, *]
    · split at h
      · simp at h
      · split at h
        · have hs := ih _ _ _ _ h
          simp [normWarehouse, *]
        · have hs := ih _ _ _ _ h
          simp [normWarehouse, *]

/-! ## C1 -/

/-- C1: if the endpoint or the credential is still empty after the environment
fallback, `list_compute_resources` returns the missing-credentials quad (tables
telling the caller to provide host URL and token, JSON with an `error` key),
whatever the external client would do — the conclusion does not depend on
`client`, so the client is never constructed and no network call is made. -/
theorem C1_missing_credentials (host_url token : String) (threshold_mins : Option Int)
    (env_url env_token : String) (client : ClientBehavior)
    (h : (if host_url = "" then env_url else host_url) = "" ∨
         (if token = "" then env_token else token) = "") :
    list_compute_resources host_url token threshold_mins env_url env_token client =
      missingCredsQuad := by
  simp only [list_compute_resources, listComputeBody]
  rw [if_pos h]
  rfl

/-- Witness for C1 at `host_url = ""`, `token = "tok"`, empty environment. -/
theorem C1_missing_credentials_witness :
    list_compute_resources "" "tok" (some 5) "" "" okClient = missingCredsQuad :=
  C1_missing_credentials "" "tok" (some 5) "" "" okClient (Or.inl (by simp))

/-! ## C2 -/

/-- C2: the per-state tallies sum exactly to the number of records of that
kind: the cluster tally built by the cluster loop sums to the number of
clusters, and whenever the warehouse loop completes, its tally sums to the
number of warehouses. -/
theorem C2_tally_sums (clusters : List ClusterRec) (threshold_mins : Option Int)
    (ws : List WarehouseRec) (info : List WInfo) (states : List (String × Nat))
    (breach_list : Table)
    (h : warehouseLoop threshold_mins ws [] [] [] = .ok (info, states, breach_list)) :
    tallySum (clusterLoop clusters [] []).2 = clusters.length ∧
    tallySum states = ws.length := by
  constructor
  · simpa [tallySum] using clusterLoop_states_sum clusters [] []
  · simpa [tallySum] using warehouseLoop_states_sum threshold_mins ws [] [] [] _ h

/-- Witness for C2 with one cluster and one warehouse. -/
theorem C2_tally_sums_witness :
    tallySum (clusterLoop [cDemo] [] []).2 = 1 ∧ tallySum [("RUNNING", 1)] = 1 :=
  C2_tally_sums [cDemo] (some 5) [wDemo]
    [{ type := "SQL Warehouse", name := "w1", id := "w1-id", state := "RUNNING",
       cluster_size := "Small", warehouse_type := "PRO", auto_stop_mins := some 30 }]
    [("RUNNING", 1)]
    [[Cell.str "w1", Cell.str "SQL Warehouse", Cell.int 30, Cell.int 5, Cell.int 25]]
    (by rfl)

/-! ## C3 -/

/-- C3: with a supplied threshold `t`, the breach list the warehouse loop
produces is exactly one row per warehouse whose `auto_stop_mins` is present and
strictly greater than `t` (`breachesSpec`), and every produced row carries
`excess = auto_stop - t`, which is strictly positive. -/
theorem C3_breach_iff (t : Int) (ws : List WarehouseRec)
    (info : List WInfo) (states : List (String × Nat)) (breach_list : Table)
    (h : warehouseLoop (some t) ws [] [] [] = .ok (info, states, breach_list)) :
    breach_list = breachesSpec t ws ∧
    List.Forall (fun row => ∃ nm a, t < a ∧ 0 < a - t ∧
      row = [Cell.str nm, Cell.str "SQL Warehouse",
             Cell.int a, Cell.int t, Cell.int (a - t)]) breach_list := by
  rw [warehouseLoop_some_eq t ws [] [] []] at h
  simp only [Except.ok.injEq, Prod.mk.injEq, List.nil_append] at h
  obtain ⟨-, -, hbr⟩ := h
  subst hbr
  refine ⟨rfl, ?_⟩
  rw [List.forall_iff_forall_mem]
  intro row hrow
  rw [breachesSpec, List.mem_filterMap] at hrow
  obtain ⟨w, hw, hf⟩ := hrow
  split at hf
  · rename_i a heq
    split at hf
    · rename_i hat
      injection hf with hf
      subst hf
      exact ⟨pyOrStr w.name "N/A", a, hat, by omega, rfl⟩
    · exact absurd hf (by simp)
  · exact absurd hf (by simp)

/-- Witness for C3 at threshold 5 with the 30-minute demo warehouse. -/
theorem C3_breach_iff_witness :
    [[Cell.str "w1", Cell.str "SQL Warehouse", Cell.int 30, Cell.int 5, Cell.int 25]]
        = breachesSpec 5 [wDemo] ∧
    List.Forall (fun row => ∃ nm a, (5 : Int) < a ∧ 0 < a - 5 ∧
      row = [Cell.str nm, Cell.str "SQL Warehouse",
             Cell.int a, Cell.int 5, Cell.int (a - 5)])
      [[Cell.str "w1", Cell.str "SQL Warehouse", Cell.int 30, Cell.int 5, Cell.int 25]] :=
  C3_breach_iff 5 [wDemo]
    [{ type := "SQL Warehouse", name := "w1", id := "w1-id", state := "RUNNING",
       cluster_size := "Small", warehouse_type := "PRO", auto_stop_mins := some 30 }]
    [("RUNNING", 1)]
    [[Cell.str "w1", Cell.str "SQL Warehouse", Cell.int 30, Cell.int 5, Cell.int 25]]
    (by rfl)

/-! ## C7 -/

/-- The defaults the spec promises for a normalized cluster record. -/
def clusterDefaultsOk (c : ClusterRec) (r : CInfo) : Prop :=
  (c.cluster_name = none → r.name = "N/A") ∧
  (c.cluster_id = none → r.id = "N/A") ∧
  (c.state = none → r.state = "Unknown")

/-- The defaults the spec promises for a normalized warehouse record: an absent
`auto_stop_mins` stays absent in the record and renders as `"N/A"` in JSON. -/
def warehouseDefaultsOk (w : WarehouseRec) (r : WInfo) : Prop :=
  (w.name = none → r.name = "N/A") ∧
  (w.id = none → r.id = "N/A") ∧
  (w.state = none → r.state = "Unknown") ∧
  (w.auto_stop_mins = none →
    r.auto_stop_mins = none ∧
    Json.lookup r.toJson "auto_stop_mins" = some (Json.str "N/A"))

theorem clusterDefaultsOk_norm (c : ClusterRec) :
    clusterDefaultsOk c (normCluster c) := by
  refine ⟨fun h => ?_, fun h => ?_, fun h => ?_⟩ <;>
    simp [normCluster, pyOrStr, enumOr, h]

theorem warehouseDefaultsOk_norm (w : WarehouseRec) :
    warehouseDefaultsOk w (normWarehouse w) := by
  refine ⟨fun h => ?_, fun h => ?_, fun h => ?_, fun h => ?_⟩ <;>
    simp [normWarehouse, pyOrStr, enumOr, WInfo.toJson, Json.lookup, h]

theorem warehouseLoop_all_none (th : Option Int) (ws : List WarehouseRec) :
    ∀ info states, (∀ w ∈ ws, w.auto_stop_mins = none) →
      ∃ i s, warehouseLoop th ws info states [] = .ok (i, s, []) := by
  induction ws with
  | nil => intro info states _; exact ⟨info, states, rfl⟩
  | cons w rest ih =>
    intro info states hall
    have hw : w.auto_stop_mins = none := hall w (List.mem_cons_self w rest)
    have hrest : ∀ v ∈ rest, v.auto_stop_mins = none :=
      fun v hv => hall v (List.mem_cons_of_mem w hv)
    obtain ⟨i, s, hi⟩ := ih _ _ hrest
    refine ⟨i, s, ?_⟩
    simp only [warehouseLoop, hw]
    exact hi

/-- C7: normalization applies the fixed defaults to every fetched record — a
missing cluster or warehouse name/id becomes `"N/A"`, a missing state becomes
`"Unknown"`, and an absent `auto_stop_mins` is kept absent in the record,
rendered `"N/A"` in the JSON view, and skipped by the threshold comparison
(the loop completes with no breach rows and no comparison error, whatever the
threshold, when every `auto_stop_mins` is absent). -/
theorem C7_normalization_defaults :
    (∀ cs : List ClusterRec,
       List.Forall₂ clusterDefaultsOk cs (clusterLoop cs [] []).1) ∧
    (∀ (th : Option Int) (ws : List WarehouseRec) info states breach_list,
       warehouseLoop th ws [] [] [] = .ok (info, states, breach_list) →
       List.Forall₂ warehouseDefaultsOk ws info) ∧
    (∀ (th : Option Int) (ws : List WarehouseRec),
       (∀ w ∈ ws, w.auto_stop_mins = none) →
       ∃ info states, warehouseLoop th ws [] [] [] = .ok (info, states, [])) := by
  refine ⟨fun cs => ?_, fun th ws info states breach_list h => ?_, fun th ws hall => ?_⟩
  · rw [clusterLoop_eq]
    simp only [List.nil_append]
    rw [List.forall₂_map_right_iff, List.forall₂_same]
    intro c _
    exact clusterDefaultsOk_norm c
  · have hp := (warehouseLoop_ok_parts th ws [] [] [] _ h).1
    simp only [List.nil_append] at hp
    rw [show info = (info, states, breach_list).1 from rfl, hp]
    rw [List.forall₂_map_right_iff, List.forall₂_same]
    intro w _
    exact warehouseDefaultsOk_norm w
  · exact warehouseLoop_all_none th ws [] [] hall

/-- Witness for C7 on the all-missing demo records. -/
theorem C7_normalization_defaults_witness :
    List.Forall₂ warehouseDefaultsOk [wNone]
      [{ type := "SQL Warehouse", name := "N/A", id := "N/A", state := "Unknown",
         cluster_size := "N/A", warehouse_type := "N/A", auto_stop_mins := none }] :=
  C7_normalization_defaults.2.1 none [wNone]
    [{ type := "SQL Warehouse", name := "N/A", id := "N/A", state := "Unknown",
       cluster_size := "N/A", warehouse_type := "N/A", auto_stop_mins := none }]
    [("Unknown", 1)] [] (by rfl)

/-! ## C4 -/

/-- C4: with valid credentials, successful fetches, and both fetched lists
empty, the call returns the distinguished empty quad — three "No resources
found" tables and a JSON object whose single key is `message` — never an
aggregate result with zeroed tallies. -/
theorem C4_empty_result (host_url token : String) (threshold_mins : Option Int)
    (env_url env_token : String) (client : ClientBehavior)
    (hh : (if host_url = "" then env_url else host_url) ≠ "")
    (ht : (if token = "" then env_token else token) ≠ "")
    (hc : client.construct = .ok ())
    (hcl : client.listClusters = .ok [])
    (hw : client.listWarehouses = .ok []) :
    list_compute_resources host_url token threshold_mins env_url env_token client
        = emptyQuad ∧
    Json.keys emptyQuad.2.2.2 = ["message"] := by
  refine ⟨?_, rfl⟩
  simp [list_compute_resources, listComputeBody, hc, hcl, hw, hh, ht,
    clusterLoop, warehouseLoop, emptyQuad]

/-- Witness for C4 with the empty client and literal credentials. -/
theorem C4_empty_result_witness :
    list_compute_resources "https://x.example.com" "tok" (some 5) "" "" emptyClient
        = emptyQuad ∧
    Json.keys emptyQuad.2.2.2 = ["message"] :=
  C4_empty_result "https://x.example.com" "tok" (some 5) "" "" emptyClient
    (by simp) (by simp) rfl rfl rfl

/-! ## C5 -/

/-- C5: with valid credentials, a failure raised during client construction or
during either fetch surfaces as the upstream-error quad carrying the raised
message verbatim — three one-row tables with the message and a JSON object
with a single `error` key — never a raw exception. -/
theorem C5_upstream_error (host_url token : String) (threshold_mins : Option Int)
    (env_url env_token : String) (client : ClientBehavior) (e : String)
    (hh : (if host_url = "" then env_url else host_url) ≠ "")
    (ht : (if token = "" then env_token else token) ≠ "")
    (hfail : client.construct = .error e ∨
             (client.construct = .ok () ∧ client.listClusters = .error e) ∨
             (client.construct = .ok () ∧ (∃ cls, client.listClusters = .ok cls) ∧
              client.listWarehouses = .error e)) :
    list_compute_resources host_url token threshold_mins env_url env_token client
      = upstreamQuad e := by
  rcases hfail with hc | ⟨hc, hcl⟩ | ⟨hc, ⟨cls, hcl⟩, hw⟩
  · simp [list_compute_resources, listComputeBody, hc, hh, ht, upstreamQuad]
  · simp [list_compute_resources, listComputeBody, hc, hcl, hh, ht, upstreamQuad]
  · simp [list_compute_resources, listComputeBody, hc, hcl, hw, hh, ht,
      clusterLoop_eq, upstreamQuad]

/-- Witness for C5: construction throwing `401 Unauthorized` yields the
`401 Unauthorized` upstream quad. -/
theorem C5_upstream_error_witness :
    list_compute_resources "https://x.example.com" "tok" (some 5) "" "" authFailClient
      = upstreamQuad "401 Unauthorized" :=
  C5_upstream_error "https://x.example.com" "tok" (some 5) "" "" authFailClient
    "401 Unauthorized" (by simp) (by simp) (Or.inl rfl)

/-! ## C6 -/

/-- C6: with valid credentials, if the cluster fetch raises then the whole call
reports that single upstream error, and the result is the same whatever the
warehouse fetch would have returned — the warehouse fetch is never attempted;
clusters are fetched first in one sequential pass. -/
theorem C6_no_partial_results (host_url token : String) (threshold_mins : Option Int)
    (env_url env_token : String) (client : ClientBehavior) (e : String)
    (hh : (if host_url = "" then env_url else host_url) ≠ "")
    (ht : (if token = "" then env_token else token) ≠ "")
    (hc : client.construct = .ok ())
    (hcl : client.listClusters = .error e) :
    (∀ wres : Except String (List WarehouseRec),
       list_compute_resources host_url token threshold_mins env_url env_token
         { client with listWarehouses := wres } = upstreamQuad e) ∧
    list_compute_resources host_url token threshold_mins env_url env_token client
      = upstreamQuad e := by
  constructor
  · intro wres
    simp [list_compute_resources, listComputeBody, hc, hcl, hh, ht, upstreamQuad]
  · simp [list_compute_resources, listComputeBody, hc, hcl, hh, ht, upstreamQuad]

/-- Witness for C6 with a failing cluster fetch. -/
theorem C6_no_partial_results_witness :
    (∀ wres : Except String (List WarehouseRec),
       list_compute_resources "https://x.example.com" "tok" (some 5) "" ""
         { clusterFailClient with listWarehouses := wres }
         = upstreamQuad "connection reset") ∧
    list_compute_resources "https://x.example.com" "tok" (some 5) "" "" clusterFailClient
      = upstreamQuad "connection reset" :=
  C6_no_partial_results "https://x.example.com" "tok" (some 5) "" "" clusterFailClient
    "connection reset" (by simp) (by simp) rfl rfl

/-! ## Shape of successful results (shared by C8 and C9) -/

theorem listComputeBody_ok_shape (host_url token : String) (threshold_mins : Option Int)
    (env_url env_token : String) (client : ClientBehavior)
    (r : Table × Table × Table × Json)
    (h : listComputeBody host_url token threshold_mins env_url env_token client = .ok r) :
    r = missingCredsQuad ∨ r = emptyQuad ∨
    (r.1 ≠ [] ∧ r.2.1 ≠ [] ∧ r.2.2.1 ≠ [] ∧
     (∃ fs, r.2.2.2 = Json.obj fs) ∧
     Json.keys r.2.2.2 = ["clusters", "sql_warehouses", "summary"] ∧
     ∃ s, Json.lookup r.2.2.2 "summary" = some s ∧
       Json.keys s = ["total_clusters", "total_warehouses",
                      "cluster_states", "warehouse_states"]) := by
  simp only [listComputeBody, clusterLoop_eq] at h
  by_cases hcred : (if host_url = "" then env_url else host_url) = "" ∨
      (if token = "" then env_token else token) = ""
  · rw [if_pos hcred] at h
    left
    injection h with h
    subst h
    rfl
  · rw [if_neg hcred] at h
    split at h
    · exact absurd h (by simp)
    · split at h
      · exact absurd h (by simp)
      · split at h
        · exact absurd h (by simp)
        · split at h
          · exact absurd h (by simp)
          · split at h
            · right; left
              injection h with h
              subst h
              rfl
            · right; right
              injection h with h
              subst h
              refine ⟨by simp, by simp, ?_, ⟨_, rfl⟩, rfl, ⟨_, rfl, rfl⟩⟩
              dsimp only
              split
              · simp
              · assumption

/-! ## C8 -/

/-- C8: the JSON output always has one of the three documented shapes — on
success an object with exactly the keys `clusters`, `sql_warehouses`,
`summary` (the summary itself holding the two totals and the two per-state
tallies), on any error an object with the single key `error`, and on the
empty outcome an object with the single key `message`. -/
theorem C8_json_shape (host_url token : String) (threshold_mins : Option Int)
    (env_url env_token : String) (client : ClientBehavior) :
    (Json.keys (list_compute_resources host_url token threshold_mins env_url
          env_token client).2.2.2 = ["clusters", "sql_warehouses", "summary"] ∧
     ∃ s, Json.lookup (list_compute_resources host_url token threshold_mins env_url
          env_token client).2.2.2 "summary" = some s ∧
       Json.keys s = ["total_clusters", "total_warehouses",
                      "cluster_states", "warehouse_states"]) ∨
    Json.keys (list_compute_resources host_url token threshold_mins env_url
        env_token client).2.2.2 = ["error"] ∨
    Json.keys (list_compute_resources host_url token threshold_mins env_url
        env_token client).2.2.2 = ["message"] := by
  cases hb : listComputeBody host_url token threshold_mins env_url env_token client with
  | error e =>
    right; left
    simp [list_compute_resources, hb, Json.keys]
  | ok r =>
    have hr : list_compute_resources host_url token threshold_mins env_url
        env_token client = r := by
      simp [list_compute_resources, hb]
    rw [hr]
    rcases listComputeBody_ok_shape _ _ _ _ _ _ _ hb with rfl | rfl | ⟨-, -, -, -, hk, s, hl, hks⟩
    · right; left; rfl
    · right; right; rfl
    · exact Or.inl ⟨hk, s, hl, hks⟩

/-! ## C9 -/

/-- C9: `list_compute_resources` is total over its public interface — for every
input (a missing threshold included) and every behaviour of the external
client (raising at any stage included) it returns three non-empty row-list
tables together with a JSON object, and every message the body raises is
caught and rendered as the upstream-error quad, so no exception escapes. -/
theorem C9_totality (host_url token : String) (threshold_mins : Option Int)
    (env_url env_token : String) (client : ClientBehavior) :
    ((list_compute_resources host_url token threshold_mins env_url env_token client).1 ≠ [] ∧
     (list_compute_resources host_url token threshold_mins env_url env_token client).2.1 ≠ [] ∧
     (list_compute_resources host_url token threshold_mins env_url env_token client).2.2.1 ≠ [] ∧
     ∃ fs, (list_compute_resources host_url token threshold_mins env_url env_token
        client).2.2.2 = Json.obj fs) ∧
    (∀ e, listComputeBody host_url token threshold_mins env_url env_token client = .error e →
       list_compute_resources host_url token threshold_mins env_url env_token client
         = upstreamQuad e) := by
  constructor
  · cases hb : listComputeBody host_url token threshold_mins env_url env_token client with
    | error e =>
      have hr : list_compute_resources host_url token threshold_mins env_url
          env_token client = upstreamQuad e := by
        simp [list_compute_resources, hb, upstreamQuad]
      rw [hr]
      exact ⟨by simp [upstreamQuad], by simp [upstreamQuad], by simp [upstreamQuad],
        ⟨_, rfl⟩⟩
    | ok r =>
      have hr : list_compute_resources host_url token threshold_mins env_url
          env_token client = r := by
        simp [list_compute_resources, hb]
      rw [hr]
      rcases listComputeBody_ok_shape _ _ _ _ _ _ _ hb with rfl | rfl | ⟨h1, h2, h3, hobj, -⟩
      · exact ⟨by simp [missingCredsQuad], by simp [missingCredsQuad],
          by simp [missingCredsQuad], ⟨_, rfl⟩⟩
      · exact ⟨by simp [emptyQuad], by simp [emptyQuad], by simp [emptyQuad], ⟨_, rfl⟩⟩
      · exact ⟨h1, h2, h3, hobj⟩
  · intro e he
    simp [list_compute_resources, he, upstreamQuad]

/-- Witness for C9: a present `auto_stop` compared against a missing threshold
raises inside the loop, and the handler still returns the structured quad. -/
theorem C9_totality_witness :
    list_compute_resources "https://x.example.com" "tok" none "" "" okClient
      = upstreamQuad noneCompareMsg :=
  (C9_totality "https://x.example.com" "tok" none "" "" okClient).2
    noneCompareMsg (by rfl)

/-! ## Sorting lemmas for C10 -/

/-- Key order used by the summary sort. -/
def pairLe (a b : String × Nat) : Prop :=
  a.1 ≤ b.1

theorem insertPair_perm (p : String × Nat) (l : List (String × Nat)) :
    List.Perm (insertPair p l) (p :: l) := by
  induction l with
  | nil => exact List.Perm.refl _
  | cons q rest ih =>
    by_cases h : p.1 < q.1
    · rw [insertPair, if_pos h]
    · rw [insertPair, if_neg h]
      exact (ih.cons q).trans (List.Perm.swap p q rest)

theorem sortPairs_perm (l : List (String × Nat)) : List.Perm (sortPairs l) l := by
  induction l with
  | nil => exact List.Perm.refl _
  | cons p rest ih => exact (insertPair_perm p (sortPairs rest)).trans (ih.cons p)

theorem pairwise_insertPair (p : String × Nat) (l : List (String × Nat))
    (h : l.Pairwise pairLe) : (insertPair p l).Pairwise pairLe := by
  induction l with
  | nil => simp [insertPair, pairLe]
  | cons q rest ih =>
    rcases List.pairwise_cons.mp h with ⟨hq, hrest⟩
    by_cases hpq : p.1 < q.1
    · rw [insertPair, if_pos hpq]
      refine List.pairwise_cons.mpr ⟨?_, h⟩
      intro x hx
      rcases List.mem_cons.mp hx with rfl | hx
      · exact le_of_lt hpq
      · exact le_trans (le_of_lt hpq) (hq x hx)
    · rw [insertPair, if_neg hpq]
      refine List.pairwise_cons.mpr ⟨?_, ih hrest⟩
      intro x hx
      rcases List.mem_cons.mp ((insertPair_perm p rest).mem_iff.mp hx) with rfl | hx
      · exact le_of_not_lt hpq
      · exact hq x hx

theorem sortPairs_pairwise (l : List (String × Nat)) :
    (sortPairs l).Pairwise pairLe := by
  induction l with
  | nil => exact List.Pairwise.nil
  | cons p rest ih => exact pairwise_insertPair p _ ih

theorem mem_keys_bump (m : List (String × Nat)) (k a : String) :
    a ∈ (bump m k).map Prod.fst ↔ a ∈ m.map Prod.fst ∨ a = k := by
  induction m with
  | nil => simp [bump]
  | cons q rest ih =>
    obtain ⟨q1, q2⟩ := q
    by_cases h : q1 = k
    · subst h
      simp [bump]
      tauto
    · simp [bump, h, ih]
      tauto

theorem keys_nodup_bump (m : List (String × Nat)) (k : String)
    (h : (m.map Prod.fst).Nodup) : ((bump m k).map Prod.fst).Nodup := by
  induction m with
  | nil => simp [bump]
  | cons q rest ih =>
    obtain ⟨q1, q2⟩ := q
    simp only [List.map_cons, List.nodup_cons] at h
    obtain ⟨hq, hrest⟩ := h
    by_cases hk : q1 = k
    · subst hk
      have hb : bump ((q1, q2) :: rest) q1 = (q1, q2 + 1) :: rest := by
        simp [bump]
      rw [hb, List.map_cons, List.nodup_cons]
      exact ⟨hq, hrest⟩
    · have h1 : q1 ∉ (bump rest k).map Prod.fst := by
        rw [mem_keys_bump]
        rintro (hmem | rfl)
        · exact hq hmem
        · exact hk rfl
      have hb : bump ((q1, q2) :: rest) k = (q1, q2) :: bump rest k := by
        simp [bump, hk]
      rw [hb, List.map_cons, List.nodup_cons]
      exact ⟨h1, ih hrest⟩

theorem keys_nodup_foldl {α : Type} (f : α → String) (l : List α) :
    ∀ m : List (String × Nat), (m.map Prod.fst).Nodup →
      ((l.foldl (fun acc x => bump acc (f x)) m).map Prod.fst).Nodup := by
  induction l with
  | nil => intro m h; simpa using h
  | cons x rest ih =>
    intro m h
    simp only [List.foldl_cons]
    exact ih _ (keys_nodup_bump m (f x) h)

theorem sortPairs_keys_strict (m : List (String × Nat))
    (h : (m.map Prod.fst).Nodup) :
    ((sortPairs m).map Prod.fst).Pairwise (fun a b : String => a < b) := by
  have hle : ((sortPairs m).map Prod.fst).Pairwise (fun a b : String => a ≤ b) :=
    List.pairwise_map.mpr (sortPairs_pairwise m)
  have hnd : ((sortPairs m).map Prod.fst).Nodup :=
    (((sortPairs_perm m).map Prod.fst).nodup_iff).mpr h
  exact (hle.and hnd).imp (fun hab => lt_of_le_of_ne hab.1 hab.2)

/-- The cluster-state tally of a fetched cluster list, as the loop builds it. -/
def statesOfClusters (cs : List ClusterRec) : List (String × Nat) :=
  cs.foldl (fun m c => bump m (enumOr c.state "Unknown")) []

/-- The warehouse-state tally of a fetched warehouse list, as the loop builds it. -/
def statesOfWarehouses (ws : List WarehouseRec) : List (String × Nat) :=
  ws.foldl (fun m w => bump m (enumOr w.state "Unknown")) []

theorem stateRows_sortPairs_if (m : List (String × Nat)) :
    (if m = [] then ([] : Table) else stateRows (sortPairs m))
      = stateRows (sortPairs m) := by
  split
  · rename_i h
    subst h
    rfl
  · rfl

/-! ## C10 -/

/-- C10: on a successful render, the first row of each summary table is the
total count of that kind, and the per-state rows below it are in strictly
ascending lexicographic order of state name, whatever order the records were
fetched in. -/
theorem C10_summary_sorted (host_url token : String) (t : Int)
    (env_url env_token : String) (client : ClientBehavior)
    (clusters : List ClusterRec) (warehouses : List WarehouseRec)
    (hh : (if host_url = "" then env_url else host_url) ≠ "")
    (ht : (if token = "" then env_token else token) ≠ "")
    (hc : client.construct = .ok ())
    (hcl : client.listClusters = .ok clusters)
    (hw : client.listWarehouses = .ok warehouses)
    (hne : clusters ≠ [] ∨ warehouses ≠ []) :
    (list_compute_resources host_url token (some t) env_url env_token client).1 =
      [[Cell.str "Total Clusters", Cell.int (clusters.length : Int)]] ++
        stateRows (sortPairs (statesOfClusters clusters)) ∧
    (list_compute_resources host_url token (some t) env_url env_token client).2.1 =
      [[Cell.str "Total Warehouses", Cell.int (warehouses.length : Int)]] ++
        stateRows (sortPairs (statesOfWarehouses warehouses)) ∧
    ((sortPairs (statesOfClusters clusters)).map Prod.fst).Pairwise
      (fun a b : String => a < b) ∧
    ((sortPairs (statesOfWarehouses warehouses)).map Prod.fst).Pairwise
      (fun a b : String => a < b) := by
  have hcond : ¬((if host_url = "" then env_url else host_url) = "" ∨
      (if token = "" then env_token else token) = "") := fun h => h.elim hh ht
  have hne3 : ¬(clusters = [] ∧ warehouses = []) := by
    rcases hne with h | h
    · exact fun hx => h hx.1
    · exact fun hx => h hx.2
  have hwl := warehouseLoop_some_eq t warehouses [] [] []
  refine ⟨?_, ?_, ?_, ?_⟩
  · simp [list_compute_resources, listComputeBody, hcond, hc, hcl, hw, clusterLoop_eq,
      hwl, hne3, stateRows_sortPairs_if, statesOfClusters]
  · simp [list_compute_resources, listComputeBody, hcond, hc, hcl, hw, clusterLoop_eq,
      hwl, hne3, stateRows_sortPairs_if, statesOfWarehouses]
  · refine sortPairs_keys_strict _ ?_
    unfold statesOfClusters
    exact keys_nodup_foldl (fun c => enumOr c.state "Unknown") clusters [] (by simp)
  · refine sortPairs_keys_strict _ ?_
    unfold statesOfWarehouses
    exact keys_nodup_foldl (fun w => enumOr w.state "Unknown") warehouses [] (by simp)

/-- Witness for C10 with one cluster and one warehouse fetched. -/
theorem C10_summary_sorted_witness :
    (list_compute_resources "https://x.example.com" "tok" (some 5) "" "" okClient).1 =
      [[Cell.str "Total Clusters", Cell.int ((1 : Nat) : Int)]] ++
        stateRows (sortPairs (statesOfClusters [cDemo])) ∧
    (list_compute_resources "https://x.example.com" "tok" (some 5) "" "" okClient).2.1 =
      [[Cell.str "Total Warehouses", Cell.int ((1 : Nat) : Int)]] ++
        stateRows (sortPairs (statesOfWarehouses [wDemo])) ∧
    ((sortPairs (statesOfClusters [cDemo])).map Prod.fst).Pairwise
      (fun a b : String => a < b) ∧
    ((sortPairs (statesOfWarehouses [wDemo])).map Prod.fst).Pairwise
      (fun a b : String => a < b) :=
  C10_summary_sorted "https://x.example.com" "tok" 5 "" "" okClient [cDemo] [wDemo]
    (by simp) (by simp) rfl rfl rfl (Or.inl (by simp))

end Anodet
